import Mathlib

/-!
A verification development for the `oil` repository's generic data-access
core: the `Filter`/`FilterGroup` predicate DSL (`shared/dto/filter.go`), the
generic repository engine (`shared/repository`), the pagination helper
`CalculateTotalPage` (`shared/shared.go`), the column derivation `getColumns`,
and the Redis cache-aside `Get` (`shared/cache/cache.go`).

Modelling conventions:
- Go `any` values flowing through filters are modelled by the tagged union
  `GoValue` (scalars and slices of scalars), mirroring the runtime type
  switches in the source.
- Go maps (`map[string]any`) are modelled as association lists with unique
  keys; `mapSet` is assignment (`m[k] = v`) and `mapsCopy` is `maps.Copy`.
  Iteration order of a map supplied by a caller (the `mod` argument of
  `update`) is modelled by the list order.
- Database handles are abstract executors: functions from the SQL text and
  the named-argument map to an outcome.  Every operation returns, next to its
  Go results, the list of statements it handed to the executor, so that
  "executes no statement" is a statement about the embedding.
- Go `int` arithmetic that can overflow is wrapped to the signed 64-bit range
  by `goInt`.  The `float64` ceiling in `CalculateTotalPage` is modelled by
  the exact integer ceiling, which agrees with the source on all magnitudes
  where `float64` division is exact enough (in particular on every value used
  in the claims).
- `fmt.Sprintf` with the `%s` verb is modelled by `GoValue.formatS`,
  including Go's `%!s(...)` rendering of non-string operands.
-/

namespace Oil

/-- A Go scalar runtime value, as discriminated by the type switches in the
source (`reflect.Kind` and type assertions). -/
inductive GoScalar where
  | str (s : String)
  | int (n : Int)
  | bool (b : Bool)
  | null
deriving DecidableEq, Repr

/-- A Go `any` value as it flows through `Filter.Value`: either a scalar or a
slice/array of scalars (the two cases `Filter.GetWhereClause` distinguishes
with `reflect.ValueOf(f.Value).Type().Kind()`). -/
inductive GoValue where
  | scalar (s : GoScalar)
  | list (xs : List GoScalar)
deriving DecidableEq, Repr

/-- Rendering of a Go scalar under the `fmt` `%s` verb: strings print raw,
every other operand prints with Go's `%!s(...)` error annotation. -/
def GoScalar.formatS : GoScalar → String
  | .str s => s
  | .int n => "%!s(int=" ++ toString n ++ ")"
  | .bool b => "%!s(bool=" ++ (if b then "true" else "false") ++ ")"
  | .null => "%!s(<nil>)"

/-- Rendering of a Go value under the `fmt` `%s` verb. -/
def GoValue.formatS : GoValue → String
  | .scalar s => s.formatS
  | .list xs => "[" ++ String.intercalate " " (xs.map GoScalar.formatS) ++ "]"

/-- A Go `map[string]any`, modelled as an association list with unique keys
(in insertion order; Go iteration order is unspecified anyway). -/
abbrev ArgsMap := List (String × GoValue)

/-- Go map assignment `m[k] = v`: replaces the binding if the key is present,
otherwise appends it. -/
def mapSet (m : ArgsMap) (k : String) (v : GoValue) : ArgsMap :=
  if m.any (fun p => p.1 = k) then m.map (fun p => if p.1 = k then (k, v) else p)
  else m ++ [(k, v)]

/-- Embedding of `maps.Copy(dst, src)`: inserts every entry of `src` into `dst`, later
entries overwriting earlier bindings of the same key. -/
def mapsCopy (dst src : ArgsMap) : ArgsMap :=
  src.foldl (fun d p => mapSet d p.1 p.2) dst

/-- The decimal digit list of a natural number, most significant digit first:
the digits that `Nat.repr` (Go's `%d` on a non-negative index) produces. -/
def natDigits (n : Nat) : List Char :=
  if n / 10 = 0 then [Nat.digitChar (n % 10)]
  else natDigits (n / 10) ++ [Nat.digitChar (n % 10)]
termination_by n
decreasing_by omega

/-- Numeric value of a digit character, used to invert `natDigits`. -/
def digitsVal (l : List Char) : Nat :=
  l.foldl (fun a c => 10 * a + (c.toNat - Char.toNat (Char.ofNat 48))) 0

/-- Embedding of `Filter` from `shared/dto/filter.go`: one column comparison. -/
structure Filter where
  ArgName : String
  Field : String
  Value : GoValue
  Operator : String
  Table : String
deriving DecidableEq, Repr

/-- The column text of a filter: `table.field` when a table is set, else the
bare field (`Filter.GetWhereClause`, lines 38-41). -/
def Filter.column (f : Filter) : String :=
  if f.Table ≠ "" then f.Table ++ "." ++ f.Field else f.Field

/-- The argument name of a filter: `ArgName`, defaulting to `Field`
(`Filter.GetWhereClause`, lines 43-46). -/
def Filter.argName (f : Filter) : String :=
  if f.ArgName = "" then f.Field else f.ArgName

/-- The named placeholder key `fmt.Sprintf("%s_%d", argName, idx)` used by the
`in` operator. -/
def inKey (argName : String) (idx : Nat) : String :=
  argName ++ "_" ++ Nat.repr idx

/-- Embedding of `Filter.GetWhereClause` (`shared/dto/filter.go`, lines 35-98): compiles a
single filter to a SQL fragment and a named-argument map.  The `in` branch
folds over the indexed elements exactly as the source's loop does; a
non-collection `in` value is inlined into the SQL text via the `%s` verb. -/
def Filter.GetWhereClause (f : Filter) : String × ArgsMap :=
  match f.Operator with
  | "eq" => (f.column ++ " = :" ++ f.argName, mapSet [] f.argName f.Value)
  | "like" =>
      (("LOWER(" ++ f.column ++ ") LIKE LOWER(:" ++ f.argName ++ ") "),
        mapSet [] f.argName (.scalar (.str ("%" ++ f.Value.formatS ++ "%"))))
  | "in" =>
      match f.Value with
      | .list xs =>
          let acc := xs.enum.foldl
            (fun (acc : ArgsMap × List String) (p : Nat × GoScalar) =>
              (mapSet acc.1 (inKey f.argName p.1) (.scalar p.2),
               acc.2 ++ [":" ++ inKey f.argName p.1]))
            ([], [])
          (f.column ++ " IN (" ++ String.intercalate ", " acc.2 ++ ") ", acc.1)
      | .scalar s =>
          (f.column ++ " IN (" ++ GoValue.formatS (.scalar s) ++ ") ", [])
  | "not_eq" => (f.column ++ " != :" ++ f.argName, mapSet [] f.argName f.Value)
  | "less_eq" => (f.column ++ " <= :" ++ f.argName, mapSet [] f.argName f.Value)
  | "greater_eq" => (f.column ++ " >= :" ++ f.argName, mapSet [] f.argName f.Value)
  | "plan" =>
      ("(" ++ (match f.Value with | .scalar (.str q) => q | _ => "") ++ ")", [])
  | "is_not_null" => (f.column ++ " IS NOT NULL", [])
  | "is_null" => (f.column ++ " IS NULL", [])
  | _ => ("", [])

mutual

/-- An element of `FilterGroup.Filters` (`[]any` in the source): a `Filter`, a
nested `FilterGroup`, or any other runtime type, which the type switch in
`FilterGroup.GetWhereClause` silently skips. -/
inductive FilterItem where
  | filter (f : Filter)
  | group (g : FilterGroup)
  | other

/-- Embedding of `FilterGroup` from `shared/dto/filter.go`: an AND/OR combination of filters and
nested groups. -/
inductive FilterGroup where
  | mk (Filters : List FilterItem) (Operator : String)

end

mutual

/-- Embedding of `FilterGroup.GetWhereClause` (`shared/dto/filter.go`, lines 105-129):
compiles the children in order, joins the fragments with the group operator
and wraps them in parentheses; an empty fragment list yields `""`. -/
def FilterGroup.GetWhereClause : FilterGroup → String × ArgsMap
  | .mk filters op =>
      let acc := itemsWhere filters ([], [])
      if acc.1 = [] then ("", acc.2)
      else ("(" ++ String.intercalate (" " ++ op ++ " ") acc.1 ++ ")", acc.2)

/-- The loop body of `FilterGroup.GetWhereClause`: appends each compiling
child's fragment and copies its arguments into the shared map; items of any
other type fall through the type switch. -/
def itemsWhere : List FilterItem → List String × ArgsMap → List String × ArgsMap
  | [], acc => acc
  | .filter f :: rest, acc =>
      itemsWhere rest
        (acc.1 ++ [(Filter.GetWhereClause f).1], mapsCopy acc.2 (Filter.GetWhereClause f).2)
  | .group g :: rest, acc =>
      itemsWhere rest
        (acc.1 ++ [(FilterGroup.GetWhereClause g).1], mapsCopy acc.2 (FilterGroup.GetWhereClause g).2)
  | .other :: rest, acc => itemsWhere rest acc

end

/-- The fragment a child of a group contributes, if the type switch accepts
it: used to describe the fragment list `itemsWhere` accumulates. -/
def itemClause : FilterItem → Option String
  | .filter f => some (Filter.GetWhereClause f).1
  | .group g => some (FilterGroup.GetWhereClause g).1
  | .other => none

/-- Whether a group child is of type `Filter` or `FilterGroup` (the two cases
of the type switch). -/
def FilterItem.isFilterOrGroup : FilterItem → Bool
  | .filter _ => true
  | .group _ => true
  | .other => false

/-- Embedding of `QueryParams` from `shared/dto/query_param.go`. -/
structure QueryParams where
  Page : Int
  Limit : Int
  SortBy : String
  SortDir : String
deriving DecidableEq, Repr

/-- Wrap an integer to Go's signed 64-bit `int` range. -/
def goInt (z : Int) : Int :=
  (z + 2 ^ 63) % 2 ^ 64 - 2 ^ 63

/-- Embedding of `CalculateTotalPage` (`shared/shared.go`, lines 31-39): `total = 0` or
`limit <= 0` collapse to one page, otherwise the page count is
`int(math.Ceil(float64(total) / float64(limit)))`, modelled by the exact
integer ceiling `(total + limit - 1) / limit` (floor division, `limit > 0`
in this branch). -/
def CalculateTotalPage (total limit : Int) : Int :=
  if total = 0 ∨ limit ≤ 0 then 1
  else (total + limit - 1) / limit

/-- Embedding of the `column` descriptor of `shared/repository`:
{name, table, alias}. -/
structure Column where
  name : String
  table : String
  colAlias : String
deriving DecidableEq, Repr

/-- The per-entity state of `Repository[T]` that the SQL builders read
(`table`, `entitas`, `primaryColumn`, `columns`, `join`, `InsertColumns`).
The database handles are not stored: each operation takes its executor as an
argument. -/
structure Repository where
  table : String
  entitas : String
  primaryColumn : String
  columns : List Column
  join : String
  InsertColumns : List String
deriving DecidableEq, Repr

/-- A statement handed to a database executor, with its named-argument map. -/
inductive Stmt where
  | read (sql : String) (args : ArgsMap)
  | write (sql : String) (args : ArgsMap)
deriving DecidableEq, Repr

/-- An error returned by a repository operation: the `errRequiredFilter`
sentinel or a `fmt.Errorf`-wrapped message. -/
inductive GoError where
  | requiredFilter
  | wrapped (msg : String)
deriving DecidableEq, Repr

/-- Outcome of a prepared read (`PrepareNamedContext` followed by
`GetContext`/`SelectContext`): preparation failure, the driver's no-rows
result, a row, or another execution error. -/
inductive ReadResult (α : Type) where
  | prepareErr (msg : String)
  | noRows
  | ok (a : α)
  | queryErr (msg : String)
deriving DecidableEq, Repr

/-- Embedding of `Repository.getSelectQuery` (`shared/repository`, lines 388-417): the
SELECT column list, optionally restricted to the named columns, each column
qualified by its table and aliased when an alias is set. -/
def Repository.getSelectQuery (repo : Repository) (columnsParam : List String) : String :=
  String.intercalate ", " (repo.columns.filterMap fun col =>
    if columnsParam.length > 0 ∧ ¬ col.name ∈ columnsParam then none
    else some (
      if col.table = "" then col.name
      else if col.colAlias ≠ "" then col.table ++ "." ++ col.name ++ " AS " ++ col.colAlias
      else col.table ++ "." ++ col.name))

/-- Embedding of `Repository.BuildWhereClause` (`shared/repository`, lines 419-430):
compiles the filter group; an empty fragment yields no WHERE clause and a
fresh empty argument map. -/
def Repository.BuildWhereClause (repo : Repository) (filter : FilterGroup) : String × ArgsMap :=
  let wa := filter.GetWhereClause
  if wa.1 = "" then (wa.1, [])
  else (" WHERE " ++ wa.1 ++ " ", wa.2)

/-- Embedding of `Repository.Exist` (`shared/repository`, lines 114-147): requires a
non-empty compiled filter, otherwise returns `errRequiredFilter` before
touching the database. -/
def Repository.Exist (repo : Repository) (db : String → ArgsMap → ReadResult Bool)
    (filter : FilterGroup) : (Bool × Option GoError) × List Stmt :=
  let wa := repo.BuildWhereClause filter
  if wa.1 = "" then ((false, some .requiredFilter), [])
  else
    let query := "SELECT EXISTS(SELECT 1 FROM " ++ repo.table ++ " " ++ wa.1 ++ ")"
    match db query wa.2 with
    | .prepareErr m =>
        ((false, some (.wrapped ("failed to check exist data (" ++ repo.entitas ++ "): " ++ m))),
          [.read query wa.2])
    | .noRows =>
        ((false, some (.wrapped ("failed to check exist data (" ++ repo.entitas
          ++ "): sql: no rows in result set"))), [.read query wa.2])
    | .queryErr m =>
        ((false, some (.wrapped ("failed to check exist data (" ++ repo.entitas ++ "): " ++ m))),
          [.read query wa.2])
    | .ok b => ((b, none), [.read query wa.2])

/-- Embedding of `Repository.Get` (`shared/repository`, lines 149-183): runs the SELECT and
maps the driver's no-rows result to the zero-value entity with a nil error.
`zero` is the Go zero value of the entity type (`var model T`). -/
def Repository.Get {T : Type} (repo : Repository) (zero : T)
    (db : String → ArgsMap → ReadResult T) (filter : FilterGroup) (columns : List String) :
    (T × Option GoError) × List Stmt :=
  let wa := repo.BuildWhereClause filter
  let selectQuery := repo.getSelectQuery columns
  let query := "SELECT " ++ selectQuery ++ " FROM " ++ repo.table ++ " " ++ repo.join ++ " " ++ wa.1
  match db query wa.2 with
  | .prepareErr m =>
      ((zero, some (.wrapped ("failed to prepare statement (" ++ repo.entitas ++ "): " ++ m))),
        [.read query wa.2])
  | .noRows => ((zero, none), [.read query wa.2])
  | .queryErr m =>
      ((zero, some (.wrapped ("failed to get data (" ++ repo.entitas ++ "): " ++ m))),
        [.read query wa.2])
  | .ok t => ((t, none), [.read query wa.2])

/-- The query text and argument map `Repository.GetAll` builds
(`shared/repository`, lines 189-212): WHERE clause, then the pagination
branch (`page > 0 && limit > 0` emits LIMIT/OFFSET, else `limit > 0` emits
LIMIT only, else nothing), then the ordering clause. -/
def Repository.getAllQuery (repo : Repository) (params : QueryParams)
    (filter : FilterGroup) (columns : List String) : String × ArgsMap :=
  let wa := repo.BuildWhereClause filter
  let selectQuery := repo.getSelectQuery columns
  let page := params.Page
  let limit := params.Limit
  let pa :=
    if page > 0 ∧ limit > 0 then
      ("LIMIT :limit OFFSET :offset",
        mapSet (mapSet wa.2 "limit" (.scalar (.int limit))) "offset"
          (.scalar (.int (goInt ((page - 1) * limit)))))
    else if limit > 0 then ("LIMIT :limit", mapSet wa.2 "limit" (.scalar (.int limit)))
    else ("", wa.2)
  let ordering :=
    if params.SortBy ≠ "" ∧ params.SortDir ≠ "" then
      "ORDER BY " ++ params.SortBy ++ " " ++ params.SortDir
    else ""
  ("SELECT " ++ selectQuery ++ " FROM " ++ repo.table ++ " " ++ repo.join ++ " " ++ wa.1
    ++ " " ++ ordering ++ " " ++ pa.1, pa.2)

/-- Embedding of `Repository.GetAll` (`shared/repository`, lines 185-236): executes the
query built by `getAllQuery`; every error (there is no no-rows special case
here) is wrapped, a success returns the selected rows. -/
def Repository.GetAll {T : Type} (repo : Repository)
    (db : String → ArgsMap → ReadResult (List T)) (params : QueryParams)
    (filter : FilterGroup) (columns : List String) :
    (List T × Option GoError) × List Stmt :=
  let qa := repo.getAllQuery params filter columns
  match db qa.1 qa.2 with
  | .prepareErr m =>
      (([], some (.wrapped ("failed to prepare statement (" ++ repo.entitas ++ "): " ++ m))),
        [.read qa.1 qa.2])
  | .noRows =>
      (([], some (.wrapped ("failed to get all data (" ++ repo.entitas
        ++ "): sql: no rows in result set"))), [.read qa.1 qa.2])
  | .queryErr m =>
      (([], some (.wrapped ("failed to get all data (" ++ repo.entitas ++ "): " ++ m))),
        [.read qa.1 qa.2])
  | .ok ts => ((ts, none), [.read qa.1 qa.2])

/-- Embedding of `Repository.delete` (`shared/repository`, lines 269-290): requires a
non-empty compiled filter, otherwise returns `errRequiredFilter` before
executing anything. -/
def Repository.delete (repo : Repository) (exec : String → ArgsMap → Option String)
    (filter : FilterGroup) : Option GoError × List Stmt :=
  let wa := repo.BuildWhereClause filter
  if wa.1 = "" then (some .requiredFilter, [])
  else
    let query := "DELETE FROM " ++ repo.table ++ " " ++ wa.1
    match exec query wa.2 with
    | none => (none, [.write query wa.2])
    | some e =>
        (some (.wrapped ("failed to delete data (" ++ repo.entitas ++ "): " ++ e)),
          [.write query wa.2])

/-- Embedding of `Repository.Delete`: the plain variant runs `delete` against the write
connection's executor. -/
def Repository.Delete (repo : Repository) (exec : String → ArgsMap → Option String)
    (filter : FilterGroup) : Option GoError × List Stmt :=
  repo.delete exec filter

/-- Embedding of `Repository.DeleteTx`: the transactional variant runs `delete` against the
supplied transaction's executor. -/
def Repository.DeleteTx (repo : Repository) (exec : String → ArgsMap → Option String)
    (filter : FilterGroup) : Option GoError × List Stmt :=
  repo.delete exec filter

/-- Embedding of `Repository.update` (`shared/repository`, lines 306-332): builds
`SET col = :col, ...` from the map keys (`mod` lists them in iteration
order), appends the compiled WHERE clause (an empty filter is not rejected),
merges the filter arguments with the update values and executes. -/
def Repository.update (repo : Repository) (exec : String → ArgsMap → Option String)
    (mod : ArgsMap) (filter : FilterGroup) : Option GoError × List Stmt :=
  let updateField := mod.map (fun p => p.1 ++ " = :" ++ p.1)
  let wa := repo.BuildWhereClause filter
  let updateQuery := String.intercalate ", " updateField
  let query := "UPDATE " ++ repo.table ++ " SET " ++ updateQuery ++ " " ++ wa.1
  let args := mapsCopy wa.2 mod
  match exec query args with
  | none => (none, [.write query args])
  | some e =>
      (some (.wrapped ("failed to update data (" ++ repo.entitas ++ "): " ++ e)),
        [.write query args])

/-- Embedding of `Repository.Update`: the plain variant runs `update` against the write
connection's executor. -/
def Repository.Update (repo : Repository) (exec : String → ArgsMap → Option String)
    (mod : ArgsMap) (filter : FilterGroup) : Option GoError × List Stmt :=
  repo.update exec mod filter

/-- Embedding of `Repository.UpdateTx`: the transactional variant runs `update` against the
supplied transaction's executor. -/
def Repository.UpdateTx (repo : Repository) (exec : String → ArgsMap → Option String)
    (mod : ArgsMap) (filter : FilterGroup) : Option GoError × List Stmt :=
  repo.update exec mod filter

/-- Embedding of `Repository.insertBulk` (`shared/repository`, lines 362-386): builds the
INSERT statement and hands it, together with the whole `models` slice, to
`NamedExecContext` unconditionally; any executor error is wrapped. -/
def Repository.insertBulk {T : Type} (repo : Repository)
    (exec : String → List T → Option String) (models : List T) :
    Option GoError × List (String × List T) :=
  let placeholder := repo.InsertColumns.map (fun c => ":" ++ c)
  let query := "INSERT INTO " ++ repo.table ++ " (" ++ String.intercalate ", " repo.InsertColumns
    ++ ") VALUES (" ++ String.intercalate ", " placeholder ++ ")"
  match exec query models with
  | none => (none, [(query, models)])
  | some e => (some (.wrapped ("failed to bulk insert order: " ++ e)), [(query, models)])

/-- Embedding of `Repository.InsertBulk`: the plain variant runs `insertBulk` against the
write connection's executor. -/
def Repository.InsertBulk {T : Type} (repo : Repository)
    (exec : String → List T → Option String) (models : List T) :
    Option GoError × List (String × List T) :=
  repo.insertBulk exec models

/-- Embedding of `Repository.InsertBulkTx`: the transactional variant runs `insertBulk`
against the supplied transaction's executor. -/
def Repository.InsertBulkTx {T : Type} (repo : Repository)
    (exec : String → List T → Option String) (models : List T) :
    Option GoError × List (String × List T) :=
  repo.insertBulk exec models

mutual

/-- A Go struct type as `getColumns` reflects over it: the ordered field
list. -/
inductive GoStruct where
  | mk (fields : List GoField)

/-- A Go struct field as `getColumns` reads it: the `db`, `table` and
`column` tags, whether the field is an embedded (anonymous) struct, and the
embedded struct's own fields. -/
inductive GoField where
  | mk (dbTag tableTag colTag : String) (anonymousStruct : Bool) (embedded : GoStruct)

end

mutual

/-- Embedding of `getColumns` (`shared/repository`, lines 432-465): derives the column
descriptors and the insert-column names of a struct type, recursing into
embedded structs with the parent's primary table. -/
def getColumns (table : String) : GoStruct → List Column × List String
  | .mk fields => getColumnsFields table fields

/-- The field loop of `getColumns`: per field, first the embedded struct's
derivation, then (when a `db` tag is present) the field's own insert name if
its table is the primary table, then its own column descriptor. -/
def getColumnsFields (table : String) : List GoField → List Column × List String
  | [] => ([], [])
  | .mk dbTag tableTag colTag anon emb :: rest =>
      let tableField := if tableTag = "" then table else tableTag
      let sub := if anon then getColumns table emb else ([], [])
      let restCols := getColumnsFields table rest
      if dbTag = "" then (sub.1 ++ restCols.1, sub.2 ++ restCols.2)
      else
        let ins := if tableField = table then [dbTag] else []
        let col :=
          if colTag = "" then [Column.mk dbTag tableField ""]
          else [Column.mk colTag tableField dbTag]
        (sub.1 ++ col ++ restCols.1, sub.2 ++ ins ++ restCols.2)

end

/-- Embedding of `Metadata` (`shared/model/metadata.go`): `CreatedAt`/`ModifiedAt` carry only
`json` tags (no `db` tag), `CreatedBy`/`ModifiedBy` are persisted. -/
def MetadataStruct : GoStruct := .mk [
  .mk "" "" "" false (.mk []),
  .mk "" "" "" false (.mk []),
  .mk "created_by" "" "" false (.mk []),
  .mk "modified_by" "" "" false (.mk [])]

/-- Field tags of the `Booking` entity (`internal/domains/booking/model`). -/
def BookingStruct : GoStruct := .mk [
  .mk "id" "" "" false (.mk []),
  .mk "room_id" "" "" false (.mk []),
  .mk "guest_name" "" "" false (.mk []),
  .mk "guest_email" "" "" false (.mk []),
  .mk "guest_phone" "" "" false (.mk []),
  .mk "booking_date" "" "" false (.mk []),
  .mk "start_time" "" "" false (.mk []),
  .mk "end_time" "" "" false (.mk []),
  .mk "purpose" "" "" false (.mk []),
  .mk "status" "" "" false (.mk []),
  .mk "" "" "" true MetadataStruct]

/-- Field tags of the `User` entity (`internal/domains/user/model`). -/
def UserStruct : GoStruct := .mk [
  .mk "id" "" "" false (.mk []),
  .mk "email" "" "" false (.mk []),
  .mk "password" "" "" false (.mk []),
  .mk "level" "" "" false (.mk []),
  .mk "google_id" "" "" false (.mk []),
  .mk "full_name" "" "" false (.mk []),
  .mk "profile_image" "" "" false (.mk []),
  .mk "is_verified" "" "" false (.mk []),
  .mk "last_login" "" "" false (.mk []),
  .mk "active" "" "" false (.mk []),
  .mk "" "" "" true MetadataStruct]

/-- Field tags of the `Room` entity (`internal/domains/room/model`). -/
def RoomStruct : GoStruct := .mk [
  .mk "id" "" "" false (.mk []),
  .mk "name" "" "" false (.mk []),
  .mk "location" "" "" false (.mk []),
  .mk "capacity" "" "" false (.mk []),
  .mk "image" "" "" false (.mk []),
  .mk "active" "" "" false (.mk []),
  .mk "" "" "" true MetadataStruct]

/-- Field tags of the `Todo` entity (`internal/domains/todo/model`). -/
def TodoStruct : GoStruct := .mk [
  .mk "id" "" "" false (.mk []),
  .mk "title" "" "" false (.mk []),
  .mk "description" "" "" false (.mk []),
  .mk "completed" "" "" false (.mk []),
  .mk "" "" "" true MetadataStruct]

/-- Field tags of the `Gallery` entity (`internal/domains/gallery/model`). -/
def GalleryStruct : GoStruct := .mk [
  .mk "id" "" "" false (.mk []),
  .mk "title" "" "" false (.mk []),
  .mk "description" "" "" false (.mk []),
  .mk "images" "" "" false (.mk []),
  .mk "" "" "" true MetadataStruct]

/-- The destination argument of `redisCache.Get`: either a `*string` (the
type switch's first case) or any other pointer, whose JSON decoding either
fails with a message or produces a decoded value. -/
inductive CacheDest where
  | stringPtr (contents : String)
  | jsonDest (decode : String → Except String String) (contents : String)

/-- An error returned by `redisCache.Get`: the final
`fmt.Errorf("failed to get cache value: %w", err)` (whose wrapped error may
be nil!) or the unmarshal wrap. -/
inductive CacheErr where
  | getWrapped (inner : Option String)
  | unmarshalWrapped (msg : String)
deriving DecidableEq, Repr

/-- Embedding of `redisCache.Get` (`shared/cache/cache.go`, lines 84-111): reads the key;
on a hit a `*string` destination receives the raw value and then control
falls through to the final wrapping return (wrapping the nil read error),
while any other destination returns nil on a successful unmarshal; on a read
error the final return wraps that error. -/
def redisGet (store : String → Except String String) (key : String) (dest : CacheDest) :
    CacheDest × Option CacheErr :=
  match store key with
  | .ok cacheValue =>
      match dest with
      | .stringPtr _ => (.stringPtr cacheValue, some (.getWrapped none))
      | .jsonDest decode contents =>
          match decode cacheValue with
          | .error m =>
              (.jsonDest decode contents,
                some (.unmarshalWrapped ("failed to unmarshal cache value: " ++ m)))
          | .ok v => (.jsonDest decode v, none)
  | .error e => (dest, some (.getWrapped (some e)))

end Oil

namespace Oil

/-! ### Helper lemmas: decimal rendering of indices -/

theorem toDigitsCore_eq_natDigits (fuel : Nat) : ∀ (n : Nat) (ds : List Char), n < fuel →
    Nat.toDigitsCore 10 fuel n ds = natDigits n ++ ds := by
  induction fuel with
  | zero => omega
  | succ fuel ih =>
    intro n ds h
    rw [Nat.toDigitsCore]
    by_cases h10 : n / 10 = 0
    · simp only [h10, if_pos]
      rw [natDigits]
      simp [h10]
    · rw [if_neg h10]
      rw [ih (n / 10) _ (by omega)]
      conv_rhs => rw [natDigits]
      rw [if_neg h10]
      simp

theorem repr_eq_natDigits (n : Nat) : Nat.repr n = (natDigits n).asString := by
  rw [Nat.repr, Nat.toDigits, toDigitsCore_eq_natDigits (n + 1) n [] (Nat.lt_succ_self n),
    List.append_nil]

theorem digitChar_sub_val (d : Nat) (h : d < 10) :
    (Nat.digitChar d).toNat - Char.toNat (Char.ofNat 48) = d := by
  interval_cases d <;> decide

theorem digitsVal_natDigits_go (n : Nat) : ∀ a : Nat,
    (natDigits n).foldl (fun a c => 10 * a + (c.toNat - Char.toNat (Char.ofNat 48))) a
      = a * 10 ^ (natDigits n).length + n := by
  induction n using Nat.strong_induction_on with
  | _ n ih =>
    intro a
    rw [natDigits]
    by_cases h : n / 10 = 0
    · simp only [h, if_pos, List.foldl_cons, List.foldl_nil, List.length_cons, List.length_nil]
      rw [digitChar_sub_val (n % 10) (Nat.mod_lt n (by norm_num))]
      have hn : n % 10 = n := by omega
      rw [hn]
      ring_nf
    · rw [if_neg h]
      simp only [List.foldl_append, List.length_append,
        List.foldl_cons, List.foldl_nil, List.length_cons, List.length_nil]
      rw [ih (n / 10) (by omega) a]
      rw [digitChar_sub_val (n % 10) (Nat.mod_lt n (by norm_num))]
      have hn : 10 * (n / 10) + n % 10 = n := Nat.div_add_mod n 10
      generalize (natDigits (n / 10)).length = L
      rw [pow_succ]
      set X : Nat := 10 ^ L with hX
      nlinarith [hn]

theorem digitsVal_natDigits (n : Nat) : digitsVal (natDigits n) = n := by
  have h := digitsVal_natDigits_go n 0
  simpa [digitsVal] using h

theorem natDigits_injective : Function.Injective natDigits := by
  intro m n h
  have hm := digitsVal_natDigits m
  rw [h, digitsVal_natDigits] at hm
  omega

theorem natRepr_injective : Function.Injective Nat.repr := by
  intro m n h
  apply natDigits_injective
  rw [repr_eq_natDigits, repr_eq_natDigits] at h
  have := congrArg String.data h
  simpa [List.asString] using this

theorem inKey_injective (argName : String) : Function.Injective (inKey argName) := by
  intro i j h
  apply natRepr_injective
  have hd := congrArg String.data h
  simp only [inKey, String.data_append, List.append_assoc] at hd
  have h1 := List.append_cancel_left hd
  have h2 := List.append_cancel_left h1
  exact String.ext h2

/-! ### Helper lemmas: map and fold behaviour -/

theorem mapSet_append_of_not_mem (m : ArgsMap) (k : String) (v : GoValue)
    (h : ∀ p ∈ m, p.1 ≠ k) : mapSet m k v = m ++ [(k, v)] := by
  rw [mapSet, if_neg]
  simp only [List.any_eq_true, decide_eq_true_eq]
  rintro ⟨p, hp, hk⟩
  exact h p hp hk

theorem inFold_go (argName : String) (xs : List GoScalar) : ∀ (k : Nat) (m : ArgsMap)
    (named : List String), (∀ p ∈ m, ∀ i, k ≤ i → p.1 ≠ inKey argName i) →
    (xs.enumFrom k).foldl
      (fun (acc : ArgsMap × List String) (p : Nat × GoScalar) =>
        (mapSet acc.1 (inKey argName p.1) (.scalar p.2), acc.2 ++ [":" ++ inKey argName p.1]))
      (m, named)
    = (m ++ (xs.enumFrom k).map (fun p => (inKey argName p.1, GoValue.scalar p.2)),
       named ++ (xs.enumFrom k).map (fun p => ":" ++ inKey argName p.1)) := by
  induction xs with
  | nil => simp [List.enumFrom]
  | cons x xs ih =>
    intro k m named hm
    simp only [List.enumFrom, List.foldl_cons, List.map_cons]
    rw [mapSet_append_of_not_mem _ _ _ (fun p hp => hm p hp k le_rfl)]
    rw [ih (k + 1) _ _ ?_]
    · simp
    · intro p hp i hi
      rcases List.mem_append.1 hp with hold | hnew
      · exact hm p hold i (by omega)
      · simp only [List.mem_singleton] at hnew
        subst hnew
        intro hcontra
        have := inKey_injective argName hcontra
        omega

end Oil

namespace Oil

theorem itemsWhere_fst (items : List FilterItem) : ∀ acc : List String × ArgsMap,
    (itemsWhere items acc).1 = acc.1 ++ items.filterMap itemClause := by
  induction items with
  | nil => intro acc; simp [itemsWhere]
  | cons item rest ih =>
    intro acc
    cases item with
    | filter f => rw [itemsWhere, ih]; simp [itemClause]
    | group g => rw [itemsWhere, ih]; simp [itemClause]
    | other => rw [itemsWhere, ih]; simp [itemClause]

theorem calculateTotalPage_ceil (total limit : Int) (h0 : total ≠ 0) (hl : 0 < limit) :
    limit * (CalculateTotalPage total limit - 1) < total
      ∧ total ≤ limit * CalculateTotalPage total limit := by
  rw [CalculateTotalPage, if_neg (by omega)]
  have hq := Int.ediv_add_emod (total + limit - 1) limit
  have hr0 : 0 ≤ (total + limit - 1) % limit := Int.emod_nonneg _ (by omega)
  have hrl : (total + limit - 1) % limit < limit := Int.emod_lt_of_pos _ hl
  constructor
  · linarith [hq, hr0]
  · linarith [hq, hrl]

/-- Claim C5 (amended): `CalculateTotalPage(total, limit)` returns the exact
ceiling of `total/limit` (characterized by
`limit * (res - 1) < total ≤ limit * res`) whenever `total ≠ 0` and
`limit > 0`, except that `total = 0` or `limit ≤ 0` yields 1; in particular
`(0,10) = 1`, `(100,10) = 10`, `(101,10) = 11`, `(100,0) = 1`, `(5,10) = 1`,
and the result is never 0 whenever `total ≥ 0`. -/
theorem calculateTotalPage_amended :
    (∀ total limit : Int, total ≠ 0 → 0 < limit →
        limit * (CalculateTotalPage total limit - 1) < total
          ∧ total ≤ limit * CalculateTotalPage total limit)
    ∧ (∀ total limit : Int, total = 0 ∨ limit ≤ 0 → CalculateTotalPage total limit = 1)
    ∧ CalculateTotalPage 0 10 = 1
    ∧ CalculateTotalPage 100 10 = 10
    ∧ CalculateTotalPage 101 10 = 11
    ∧ CalculateTotalPage 100 0 = 1
    ∧ CalculateTotalPage 5 10 = 1
    ∧ (∀ total limit : Int, 0 ≤ total → CalculateTotalPage total limit ≠ 0) := by
  refine ⟨fun t l h0 hl => calculateTotalPage_ceil t l h0 hl,
    fun t l h => by rw [CalculateTotalPage, if_pos h],
    by decide, by decide, by decide, by decide, by decide, ?_⟩
  intro total limit ht
  by_cases hc : total = 0 ∨ limit ≤ 0
  · rw [CalculateTotalPage, if_pos hc]
    omega
  · push_neg at hc
    obtain ⟨h1, h2⟩ := calculateTotalPage_ceil total limit hc.1 hc.2
    intro h0res
    rw [h0res] at h2
    simp only [mul_zero] at h2
    omega

/-- Claim C5 witness: the ceiling characterization applied at `(101, 10)`. -/
theorem calculateTotalPage_amended_witness :
    (10 : Int) * (CalculateTotalPage 101 10 - 1) < 101
      ∧ (101 : Int) ≤ 10 * CalculateTotalPage 101 10 :=
  calculateTotalPage_amended.1 101 10 (by decide) (by decide)

/-- Claim C5 counterexample: with a negative total the code returns
`ceil(-1/10) = 0`, so "the result is never 0" is false as universally
stated. -/
theorem calculateTotalPage_zero_at_neg : CalculateTotalPage (-1) 10 = 0 := by decide

/-- Claim C6: a `FilterGroup` with an empty child list compiles to the empty
string and an empty argument map, and `BuildWhereClause` then emits no WHERE
clause (empty clause and fresh empty map). -/
theorem empty_group_compiles_empty (op : String) (repo : Repository) :
    (FilterGroup.mk [] op).GetWhereClause = ("", [])
      ∧ repo.BuildWhereClause (FilterGroup.mk [] op) = ("", []) := by
  have h : (FilterGroup.mk [] op).GetWhereClause = ("", []) := by
    rw [FilterGroup.GetWhereClause]
    simp [itemsWhere]
  refine ⟨h, ?_⟩
  rw [Repository.BuildWhereClause]
  simp [h]

/-- Claim C6 witness: the empty AND-group against a concrete repository. -/
theorem empty_group_compiles_empty_witness :
    (FilterGroup.mk [] "AND").GetWhereClause = ("", [])
      ∧ (Repository.mk "todos" "todo" "id" [] "" []).BuildWhereClause (FilterGroup.mk [] "AND")
          = ("", []) :=
  empty_group_compiles_empty "AND" (Repository.mk "todos" "todo" "id" [] "" [])

/-- Claim C7: for every entity struct type of this repository (Booking, User,
Room, Todo, Gallery, each embedding the shared Metadata), the derived
`insertColumns` names form a subset of the derived `columns` names, and the
names in each of the two lists are unique. -/
theorem entity_columns_subset_nodup :
    ((getColumns "room_bookings" BookingStruct).2
        ⊆ ((getColumns "room_bookings" BookingStruct).1.map Column.name)
      ∧ (getColumns "room_bookings" BookingStruct).2.Nodup
      ∧ ((getColumns "room_bookings" BookingStruct).1.map Column.name).Nodup)
    ∧ ((getColumns "users" UserStruct).2 ⊆ ((getColumns "users" UserStruct).1.map Column.name)
      ∧ (getColumns "users" UserStruct).2.Nodup
      ∧ ((getColumns "users" UserStruct).1.map Column.name).Nodup)
    ∧ ((getColumns "rooms" RoomStruct).2 ⊆ ((getColumns "rooms" RoomStruct).1.map Column.name)
      ∧ (getColumns "rooms" RoomStruct).2.Nodup
      ∧ ((getColumns "rooms" RoomStruct).1.map Column.name).Nodup)
    ∧ ((getColumns "todos" TodoStruct).2 ⊆ ((getColumns "todos" TodoStruct).1.map Column.name)
      ∧ (getColumns "todos" TodoStruct).2.Nodup
      ∧ ((getColumns "todos" TodoStruct).1.map Column.name).Nodup)
    ∧ ((getColumns "galleries" GalleryStruct).2
        ⊆ ((getColumns "galleries" GalleryStruct).1.map Column.name)
      ∧ (getColumns "galleries" GalleryStruct).2.Nodup
      ∧ ((getColumns "galleries" GalleryStruct).1.map Column.name).Nodup) := by
  refine ⟨⟨by decide, by decide, by decide⟩, ⟨by decide, by decide, by decide⟩,
    ⟨by decide, by decide, by decide⟩, ⟨by decide, by decide, by decide⟩,
    ⟨by decide, by decide, by decide⟩⟩

/-- Claim C8 (amended): `InsertBulk` (and `InsertBulkTx`) called with an empty
slice has no empty-slice guard: it hands the INSERT statement together with
the empty slice to the executor exactly once, and returns nil error exactly
when that executor call succeeds. -/
theorem insertBulk_no_empty_guard (T : Type) (repo : Repository)
    (exec : String → List T → Option String) :
    (repo.InsertBulk exec ([] : List T)).2
        = [("INSERT INTO " ++ repo.table ++ " (" ++ String.intercalate ", " repo.InsertColumns
            ++ ") VALUES ("
            ++ String.intercalate ", " (repo.InsertColumns.map (fun c => ":" ++ c)) ++ ")", [])]
      ∧ (repo.InsertBulkTx exec ([] : List T)).2
        = [("INSERT INTO " ++ repo.table ++ " (" ++ String.intercalate ", " repo.InsertColumns
            ++ ") VALUES ("
            ++ String.intercalate ", " (repo.InsertColumns.map (fun c => ":" ++ c)) ++ ")", [])]
      ∧ ((repo.InsertBulk exec ([] : List T)).1 = none
          ↔ exec ("INSERT INTO " ++ repo.table ++ " (" ++ String.intercalate ", "
              repo.InsertColumns ++ ") VALUES ("
              ++ String.intercalate ", " (repo.InsertColumns.map (fun c => ":" ++ c)) ++ ")") []
            = none) := by
  unfold Repository.InsertBulk Repository.InsertBulkTx Repository.insertBulk
  cases h : exec ("INSERT INTO " ++ repo.table ++ " (" ++ String.intercalate ", "
      repo.InsertColumns ++ ") VALUES ("
      ++ String.intercalate ", " (repo.InsertColumns.map (fun c => ":" ++ c)) ++ ")") [] <;>
    simp [h]

/-- Claim C8 witness: a concrete repository and an always-failing executor show
the wrapped executor error surfacing from the empty-slice call. -/
theorem insertBulk_no_empty_guard_witness :
    ((Repository.mk "rooms" "room" "id" [] "" ["id"]).InsertBulk
        (fun _ _ => some "length of array is 0") ([] : List Bool)).2
      = [("INSERT INTO " ++ "rooms" ++ " (" ++ String.intercalate ", " ["id"]
          ++ ") VALUES (" ++ String.intercalate ", " (["id"].map (fun c => ":" ++ c)) ++ ")", [])] :=
  (insertBulk_no_empty_guard Bool (Repository.mk "rooms" "room" "id" [] "" ["id"])
    (fun _ _ => some "length of array is 0")).1

/-- Claim C8 counterexample: `InsertBulk` on the empty slice does execute a
statement (the INSERT reaches the executor), refuting "executes no statement
against the database"; with a successful executor it also returns nil,
showing the trace, not the error, is where the claim fails. -/
theorem insertBulk_empty_executes :
    ((Repository.mk "todos" "todo" "id" [] "" ["id", "title"]).InsertBulk
        (fun _ _ => none) ([] : List Bool)).2
      = [("INSERT INTO todos (id, title) VALUES (:id, :title)", [])]
    ∧ ((Repository.mk "todos" "todo" "id" [] "" ["id", "title"]).InsertBulk
        (fun _ _ => none) ([] : List Bool)).2 ≠ []
    ∧ ((Repository.mk "todos" "todo" "id" [] "" ["id", "title"]).InsertBulk
        (fun _ _ => none) ([] : List Bool)).1 = none := by
  refine ⟨by decide, by decide, by decide⟩

/-- Claim C9: for every key present in the store, `redisCache.Get` into a
`*string` destination writes the stored raw value but still returns the
non-nil final error wrapping the nil read error, while `Get` into a
non-string destination returns nil when unmarshalling the stored value
succeeds. -/
theorem redis_get_string_dest_error (store : String → Except String String) (key v : String)
    (h : store key = .ok v) :
    (∀ s0, redisGet store key (.stringPtr s0) = (.stringPtr v, some (.getWrapped none)))
    ∧ (∀ (dec : String → Except String String) (c0 d : String), dec v = .ok d →
        redisGet store key (.jsonDest dec c0) = (.jsonDest dec d, none)) := by
  constructor
  · intro s0
    rw [redisGet, h]
  · intro dec c0 d hdec
    rw [redisGet, h]
    simp [hdec]

/-- Claim C9 witness: a one-key store, hit with both destination kinds. -/
theorem redis_get_string_dest_error_witness :
    redisGet (fun _ => .ok "raw") "k" (.stringPtr "old")
        = (.stringPtr "raw", some (.getWrapped none))
    ∧ redisGet (fun _ => .ok "raw") "k" (.jsonDest (fun s => .ok (s ++ "!")) "old")
        = (.jsonDest (fun s => .ok (s ++ "!")) "raw!", none) :=
  ⟨(redis_get_string_dest_error (fun _ => .ok "raw") "k" "raw" rfl).1 "old",
   (redis_get_string_dest_error (fun _ => .ok "raw") "k" "raw" rfl).2
     (fun s => .ok (s ++ "!")) "old" "raw!" rfl⟩

end Oil

namespace Oil

theorem string_append_empty (s : String) : s ++ "" = s := by
  apply String.ext
  simp [String.data_append]

/-- Claim C1: whenever a filter group compiles to the empty WHERE fragment,
`Exist`, `Delete` and `DeleteTx` return the required-filter error without
handing any statement to the executor, while `Update` and `UpdateTx` on the
same filter never return that error and do execute the UPDATE statement with
no WHERE clause. -/
theorem exist_delete_require_filter_update_not (repo : Repository) (filter : FilterGroup)
    (h : (filter.GetWhereClause).1 = "") :
    (∀ db : String → ArgsMap → ReadResult Bool,
        repo.Exist db filter = ((false, some .requiredFilter), []))
    ∧ (∀ exec : String → ArgsMap → Option String,
        repo.Delete exec filter = (some .requiredFilter, [])
          ∧ repo.DeleteTx exec filter = (some .requiredFilter, []))
    ∧ (∀ (exec : String → ArgsMap → Option String) (mod : ArgsMap),
        (repo.Update exec mod filter).1 ≠ some .requiredFilter
          ∧ (repo.UpdateTx exec mod filter).1 ≠ some .requiredFilter
          ∧ (repo.Update exec mod filter).2
              = [.write ("UPDATE " ++ repo.table ++ " SET "
                  ++ String.intercalate ", " (mod.map (fun p => p.1 ++ " = :" ++ p.1)) ++ " ")
                  (mapsCopy [] mod)]) := by
  have hb : repo.BuildWhereClause filter = ("", []) := by
    rw [Repository.BuildWhereClause]
    simp [h]
  refine ⟨?_, ?_, ?_⟩
  · intro db
    rw [Repository.Exist, hb]
    rfl
  · intro exec
    constructor
    · rw [Repository.Delete, Repository.delete, hb]
      rfl
    · rw [Repository.DeleteTx, Repository.delete, hb]
      rfl
  · intro exec mod
    refine ⟨?_, ?_, ?_⟩
    · rw [Repository.Update, Repository.update, hb]
      split <;> simp
    · rw [Repository.UpdateTx, Repository.update, hb]
      split <;> simp
    · rw [Repository.Update, Repository.update, hb]
      simp only [string_append_empty]
      split <;> simp

/-- Claim C1 witness: a concrete repository with the empty AND-group. -/
theorem exist_delete_require_filter_update_not_witness :
    (Repository.mk "todos" "todo" "id" [] "" []).Exist (fun _ _ => .ok true)
        (FilterGroup.mk [] "AND") = ((false, some .requiredFilter), [])
    ∧ (Repository.mk "todos" "todo" "id" [] "" []).Delete (fun _ _ => none)
        (FilterGroup.mk [] "AND") = (some .requiredFilter, [])
    ∧ ((Repository.mk "todos" "todo" "id" [] "" []).Update (fun _ _ => none)
        [("name", .scalar (.str "x"))] (FilterGroup.mk [] "AND")).1
          ≠ some .requiredFilter :=
  ⟨(exist_delete_require_filter_update_not (Repository.mk "todos" "todo" "id" [] "" [])
      (FilterGroup.mk [] "AND") rfl).1 (fun _ _ => .ok true),
   ((exist_delete_require_filter_update_not (Repository.mk "todos" "todo" "id" [] "" [])
      (FilterGroup.mk [] "AND") rfl).2.1 (fun _ _ => none)).1,
   ((exist_delete_require_filter_update_not (Repository.mk "todos" "todo" "id" [] "" [])
      (FilterGroup.mk [] "AND") rfl).2.2 (fun _ _ => none) [("name", .scalar (.str "x"))]).1⟩

/-- Claim C2: when the executor reports the driver's no-rows result for the
query `Get` builds, `Get` returns the zero-value entity together with a nil
error. -/
theorem get_noRows_zero_nil (T : Type) (repo : Repository) (zero : T)
    (db : String → ArgsMap → ReadResult T) (filter : FilterGroup) (columns : List String)
    (h : db ("SELECT " ++ repo.getSelectQuery columns ++ " FROM " ++ repo.table ++ " "
          ++ repo.join ++ " " ++ (repo.BuildWhereClause filter).1)
        (repo.BuildWhereClause filter).2 = .noRows) :
    Repository.Get repo zero db filter columns
      = ((zero, none),
         [.read ("SELECT " ++ repo.getSelectQuery columns ++ " FROM " ++ repo.table ++ " "
            ++ repo.join ++ " " ++ (repo.BuildWhereClause filter).1)
           (repo.BuildWhereClause filter).2]) := by
  simp only [Repository.Get]
  rw [h]

/-- Claim C2 witness: a no-rows executor against a concrete repository. -/
theorem get_noRows_zero_nil_witness :
    Repository.Get (Repository.mk "todos" "todo" "id" [] "" []) false
        (fun _ _ => .noRows) (FilterGroup.mk [] "AND") []
      = ((false, none),
         [.read ("SELECT " ++ (Repository.mk "todos" "todo" "id" [] "" []).getSelectQuery []
            ++ " FROM " ++ "todos" ++ " " ++ "" ++ " "
            ++ ((Repository.mk "todos" "todo" "id" [] "" []).BuildWhereClause
                (FilterGroup.mk [] "AND")).1)
           ((Repository.mk "todos" "todo" "id" [] "" []).BuildWhereClause
              (FilterGroup.mk [] "AND")).2]) :=
  get_noRows_zero_nil Bool (Repository.mk "todos" "todo" "id" [] "" []) false
    (fun _ _ => .noRows) (FilterGroup.mk [] "AND") [] rfl

/-- Claim C4: `GetAll` emits `LIMIT :limit OFFSET :offset` (with
`offset = (page-1)*limit`) when page and limit are both positive, only
`LIMIT :limit` when limit is positive but page is not, and no pagination at
all when limit is not positive; it executes exactly the built query. -/
theorem getAll_pagination_cases (repo : Repository) (params : QueryParams)
    (filter : FilterGroup) (columns : List String) :
    (0 < params.Page → 0 < params.Limit →
        repo.getAllQuery params filter columns
          = ("SELECT " ++ repo.getSelectQuery columns ++ " FROM " ++ repo.table ++ " "
              ++ repo.join ++ " " ++ (repo.BuildWhereClause filter).1 ++ " "
              ++ (if params.SortBy ≠ "" ∧ params.SortDir ≠ "" then
                    "ORDER BY " ++ params.SortBy ++ " " ++ params.SortDir
                  else "")
              ++ " " ++ "LIMIT :limit OFFSET :offset",
             mapSet (mapSet (repo.BuildWhereClause filter).2 "limit"
                 (.scalar (.int params.Limit))) "offset"
               (.scalar (.int (goInt ((params.Page - 1) * params.Limit))))))
    ∧ (params.Page ≤ 0 → 0 < params.Limit →
        repo.getAllQuery params filter columns
          = ("SELECT " ++ repo.getSelectQuery columns ++ " FROM " ++ repo.table ++ " "
              ++ repo.join ++ " " ++ (repo.BuildWhereClause filter).1 ++ " "
              ++ (if params.SortBy ≠ "" ∧ params.SortDir ≠ "" then
                    "ORDER BY " ++ params.SortBy ++ " " ++ params.SortDir
                  else "")
              ++ " " ++ "LIMIT :limit",
             mapSet (repo.BuildWhereClause filter).2 "limit" (.scalar (.int params.Limit))))
    ∧ (params.Limit ≤ 0 →
        repo.getAllQuery params filter columns
          = ("SELECT " ++ repo.getSelectQuery columns ++ " FROM " ++ repo.table ++ " "
              ++ repo.join ++ " " ++ (repo.BuildWhereClause filter).1 ++ " "
              ++ (if params.SortBy ≠ "" ∧ params.SortDir ≠ "" then
                    "ORDER BY " ++ params.SortBy ++ " " ++ params.SortDir
                  else "")
              ++ " " ++ "",
             (repo.BuildWhereClause filter).2))
    ∧ (∀ (T : Type) (db : String → ArgsMap → ReadResult (List T)),
        (Repository.GetAll repo db params filter columns).2
          = [.read (repo.getAllQuery params filter columns).1
              (repo.getAllQuery params filter columns).2]) := by
  refine ⟨?_, ?_, ?_, ?_⟩
  · intro hp hl
    simp only [Repository.getAllQuery]
    rw [if_pos (show params.Page > 0 ∧ params.Limit > 0 from ⟨hp, hl⟩)]
  · intro hp hl
    simp only [Repository.getAllQuery]
    rw [if_neg (show ¬ (params.Page > 0 ∧ params.Limit > 0) from fun hc => absurd hc.1 (by omega)),
      if_pos (show params.Limit > 0 from hl)]
  · intro hl
    simp only [Repository.getAllQuery]
    rw [if_neg (show ¬ (params.Page > 0 ∧ params.Limit > 0) from fun hc => absurd hc.2 (by omega)),
      if_neg (show ¬ params.Limit > 0 from by omega)]
  · intro T db
    rcases hdb : db (repo.getAllQuery params filter columns).1
        (repo.getAllQuery params filter columns).2 with m | _ | ts | m <;>
      simp only [Repository.GetAll, hdb]

/-- Claim C4 witness: page 2 with limit 10 against a concrete repository emits
LIMIT/OFFSET with offset 10. -/
theorem getAll_pagination_cases_witness :
    (Repository.mk "todos" "todo" "id" [] "" []).getAllQuery
        (QueryParams.mk 2 10 "" "") (FilterGroup.mk [] "AND") []
      = ("SELECT " ++ (Repository.mk "todos" "todo" "id" [] "" []).getSelectQuery []
          ++ " FROM " ++ "todos" ++ " " ++ "" ++ " "
          ++ ((Repository.mk "todos" "todo" "id" [] "" []).BuildWhereClause
              (FilterGroup.mk [] "AND")).1 ++ " "
          ++ (if ("" : String) ≠ "" ∧ ("" : String) ≠ "" then
                "ORDER BY " ++ "" ++ " " ++ ""
              else "")
          ++ " " ++ "LIMIT :limit OFFSET :offset",
         mapSet (mapSet (((Repository.mk "todos" "todo" "id" [] "" []).BuildWhereClause
               (FilterGroup.mk [] "AND")).2) "limit" (.scalar (.int 10))) "offset"
           (.scalar (.int (goInt ((2 - 1) * 10))))) :=
  (getAll_pagination_cases (Repository.mk "todos" "todo" "id" [] "" [])
    (QueryParams.mk 2 10 "" "") (FilterGroup.mk [] "AND") []).1 (by decide) (by decide)

end Oil

namespace Oil

theorem inFold_enum (argName : String) (xs : List GoScalar) :
    xs.enum.foldl
      (fun (acc : ArgsMap × List String) (p : Nat × GoScalar) =>
        (mapSet acc.1 (inKey argName p.1) (.scalar p.2), acc.2 ++ [":" ++ inKey argName p.1]))
      ([], [])
    = (xs.enum.map (fun p => (inKey argName p.1, GoValue.scalar p.2)),
       xs.enum.map (fun p => ":" ++ inKey argName p.1)) := by
  simp only [List.enum]
  simpa using inFold_go argName xs 0 [] [] (by simp)

/-- Claim C3: compiling a filter whose operator is `in` over a slice of length
N produces exactly one named placeholder `:argName_i` per element
(`i = 0 … N-1`, in order) and an argument map with exactly the N
corresponding entries; over a non-collection value it inlines the rendered
value unescaped into the SQL text inside `IN (...)` with an empty argument
map. -/
theorem in_operator_placeholders (f : Filter) (hop : f.Operator = "in") :
    (∀ xs : List GoScalar, f.Value = .list xs →
        f.GetWhereClause
          = (f.column ++ " IN ("
              ++ String.intercalate ", " (xs.enum.map (fun p => ":" ++ inKey f.argName p.1))
              ++ ") ",
             xs.enum.map (fun p => (inKey f.argName p.1, GoValue.scalar p.2)))
          ∧ (f.GetWhereClause).2.length = xs.length)
    ∧ (∀ s : GoScalar, f.Value = .scalar s →
        f.GetWhereClause = (f.column ++ " IN (" ++ GoValue.formatS (.scalar s) ++ ") ", [])) := by
  obtain ⟨an, fld, v, op, tb⟩ := f
  replace hop : op = "in" := hop
  subst hop
  constructor
  · intro xs hv
    replace hv : v = .list xs := hv
    subst hv
    have heq : (Filter.mk an fld (.list xs) "in" tb).GetWhereClause
        = ((Filter.mk an fld (.list xs) "in" tb).column ++ " IN ("
            ++ String.intercalate ", "
              (xs.enum.map (fun p => ":" ++ inKey (Filter.mk an fld (.list xs) "in" tb).argName p.1))
            ++ ") ",
           xs.enum.map
             (fun p => (inKey (Filter.mk an fld (.list xs) "in" tb).argName p.1,
               GoValue.scalar p.2))) := by
      simp only [Filter.GetWhereClause]
      rw [inFold_enum]
    refine ⟨heq, ?_⟩
    rw [heq]
    simp
  · intro s hv
    replace hv : v = .scalar s := hv
    subst hv
    simp only [Filter.GetWhereClause]

/-- Claim C3 witness: `in` over a two-element slice. -/
theorem in_operator_placeholders_witness :
    (Filter.mk "" "id" (.list [.str "a", .str "b"]) "in" "").GetWhereClause
      = ((Filter.mk "" "id" (.list [.str "a", .str "b"]) "in" "").column ++ " IN ("
          ++ String.intercalate ", "
            (([GoScalar.str "a", GoScalar.str "b"].enum).map
              (fun p => ":" ++ inKey (Filter.mk "" "id"
                (.list [.str "a", .str "b"]) "in" "").argName p.1))
          ++ ") ",
         ([GoScalar.str "a", GoScalar.str "b"].enum).map
           (fun p => (inKey (Filter.mk "" "id"
               (.list [.str "a", .str "b"]) "in" "").argName p.1, GoValue.scalar p.2)))
    ∧ ((Filter.mk "" "id" (.list [.str "a", .str "b"]) "in" "").GetWhereClause).2.length = 2 :=
  (in_operator_placeholders (Filter.mk "" "id" (.list [.str "a", .str "b"]) "in" "") rfl).1
    [.str "a", .str "b"] rfl

theorem paren_ne_empty (s : String) : "(" ++ s ++ ")" ≠ "" := by
  intro h
  have hd := congrArg String.data h
  simp only [String.data_append, show "(".data = ['('] from rfl,
    show (")" : String).data = [')'] from rfl, show ("" : String).data = [] from rfl] at hd
  simp at hd

/-- Claim C10: a group with at least one child of type `Filter` or
`FilterGroup` always compiles to a parenthesized, non-empty string, even
when every child compiles to the empty fragment: a single unknown-operator
filter yields `"()"` with an empty argument map, which the `Exist` guard
accepts as a non-empty clause (no required-filter error, a statement is
executed). -/
theorem nonempty_group_parenthesized :
    (∀ (items : List FilterItem) (op : String),
        (∃ it ∈ items, it.isFilterOrGroup = true) →
        (FilterGroup.mk items op).GetWhereClause.1
            = "(" ++ String.intercalate (" " ++ op ++ " ") (items.filterMap itemClause) ++ ")"
          ∧ (FilterGroup.mk items op).GetWhereClause.1 ≠ "")
    ∧ (FilterGroup.mk [.filter (Filter.mk "" "f" (.scalar .null) "bogus" "")]
        "AND").GetWhereClause = ("()", [])
    ∧ (∀ (repo : Repository) (db : String → ArgsMap → ReadResult Bool),
        (repo.Exist db (FilterGroup.mk [.filter (Filter.mk "" "f" (.scalar .null) "bogus" "")]
            "AND")).1.2 ≠ some .requiredFilter
          ∧ (repo.Exist db (FilterGroup.mk [.filter (Filter.mk "" "f" (.scalar .null) "bogus" "")]
              "AND")).2 ≠ []) := by
  refine ⟨?_, by decide, ?_⟩
  · rintro items op ⟨it, hmem, hfg⟩
    have hcl : (itemsWhere items ([], [])).1 = items.filterMap itemClause := by
      simpa using itemsWhere_fst items ([], [])
    have hne : items.filterMap itemClause ≠ [] := by
      intro hnil
      rw [List.filterMap_eq_nil_iff] at hnil
      have hn := hnil it hmem
      cases it with
      | filter f => simp [itemClause] at hn
      | group g => simp [itemClause] at hn
      | other => simp [FilterItem.isFilterOrGroup] at hfg
    have heq : (FilterGroup.mk items op).GetWhereClause.1
        = "(" ++ String.intercalate (" " ++ op ++ " ") (items.filterMap itemClause) ++ ")" := by
      simp only [FilterGroup.GetWhereClause]
      rw [if_neg (show ¬ (itemsWhere items ([], ([] : ArgsMap))).1 = [] from by
        rw [hcl]; exact hne)]
      simp [hcl]
    exact ⟨heq, by rw [heq]; exact paren_ne_empty _⟩
  · intro repo db
    have hb : repo.BuildWhereClause
        (FilterGroup.mk [.filter (Filter.mk "" "f" (.scalar .null) "bogus" "")] "AND")
          = (" WHERE () ", []) := rfl
    rw [Repository.Exist, hb,
      if_neg (show ¬ ((" WHERE () ", ([] : ArgsMap)).1 = "") from by decide)]
    constructor
    · dsimp only
      split <;> simp
    · dsimp only
      split <;> simp

/-- Claim C10 witness: the single-unknown-operator group is accepted as a
non-empty clause. -/
theorem nonempty_group_parenthesized_witness :
    (FilterGroup.mk [.filter (Filter.mk "" "f" (.scalar .null) "bogus" "")]
        "AND").GetWhereClause.1 ≠ "" :=
  (nonempty_group_parenthesized.1
    [.filter (Filter.mk "" "f" (.scalar .null) "bogus" "")] "AND"
    ⟨.filter (Filter.mk "" "f" (.scalar .null) "bogus" ""), List.mem_singleton.2 rfl, rfl⟩).2

end Oil
